import Mathlib

/-
Formal model of the detection core of `elemental_attack_detector.py`.

The program repeatedly captures the screen (or a configured sub-region),
runs priority-ordered template matching for the glyphs 6, 5, 4, falls back
to OCR over two fixed sub-rectangles, and clicks when a detection survives
a cooldown check.  External collaborators (screen capture, cv2 template
matching, the OCR engine, the mouse) are modelled as function parameters;
confidences are rationals (the code only compares them), screen
coordinates are integers, and image pixel data is abstracted to a
`content` tag because the correlation surface is produced by the cv2
collaborator, never inspected by the program itself.  Python exceptions
are modelled with `Except PyErr`; Python truthiness of the optional
click coordinates (`if click_x and click_y:`) is modelled by `truthy`.
-/

/- Exceptions that can cross the boundaries the source cares about:
`captureError` for a failing `ImageGrab.grab`, `cvAssert` for the OpenCV
assertion raised by `cv2.matchTemplate` when the template exceeds the
image, `noneSubscript` for subscripting a Python `None`, and `ocrError`
for a `pytesseract` failure. -/
inductive PyErr where
  | captureError
  | cvAssert
  | noneSubscript
  | ocrError
deriving DecidableEq, Repr

/- A grayscale raster: `shape[0]` is the height, `shape[1]` the width.
`content` abstracts the pixel data (it only matters to the collaborator
functions, which receive the whole `Img`). -/
structure Img where
  height : Nat
  width : Nat
  content : Nat
deriving DecidableEq, Repr

/- `cv2.matchTemplate` followed by `cv2.minMaxLoc` (lines 853-854 etc.):
the collaborator `mtv` supplies `(max_val, max_loc)` of the normalized
cross-correlation surface; OpenCV asserts that the template is no larger
than the image in either dimension and raises otherwise. -/
def matchTemplate (mtv : Img → Img → ℚ × ℤ × ℤ) (image templ : Img) :
    Except PyErr (ℚ × ℤ × ℤ) :=
  if templ.height ≤ image.height ∧ templ.width ≤ image.width then
    .ok (mtv image templ)
  else
    .error .cvAssert

/- The running best of one per-class template loop (lines 848-859):
`best_conf`, `best_loc`, `best_match`. -/
structure BestMatch where
  conf : ℚ
  loc : Option (ℤ × ℤ)
  tmpl : Option Img
deriving DecidableEq, Repr

/- `best_match = None; best_conf = 0.0; best_loc = None`. -/
def initBest : BestMatch := ⟨0, none, none⟩

/- The `for template in templates:` loop of one priority class
(lines 852-859): evaluate every template and keep the strictly best one.
A `cv2.matchTemplate` failure propagates (there is no handler between the
loop and the per-cycle handler in the caller). -/
def scanClass (mtv : Img → Img → ℚ × ℤ × ℤ) (gray : Img) :
    List Img → BestMatch → Except PyErr BestMatch
  | [], b => .ok b
  | t :: ts, b =>
    match matchTemplate mtv gray t with
    | .error e => .error e
    | .ok (v, lx, ly) =>
      scanClass mtv gray ts (if b.conf < v then ⟨v, some (lx, ly), some t⟩ else b)

/- The tuple returned by `detect_with_templates`
`(detected, detected_number, click_x, click_y, confidence)`. -/
structure DetectResult where
  detected : Bool
  number : Option Nat
  clickX : Option ℤ
  clickY : Option ℤ
  confidence : ℚ
deriving DecidableEq, Repr

/- `detected = False; click_x, click_y = None, None; detected_number = None;
confidence = 0.0` (lines 831-834). -/
def initResult : DetectResult := ⟨false, none, none, none, 0⟩

/- The threshold acceptance after one class scan (lines 861-867): when the
best confidence reaches the threshold the click target is the match
top-left plus half the matched template's width/height plus the capture
offset.  When the loop never updated (all correlations were at most the
0.0 initial value) the code subscripts `best_loc = None` and raises. -/
def acceptBest (threshold : ℚ) (offX offY : ℤ) (num : Nat) (b : BestMatch)
    (st : DetectResult) : Except PyErr DetectResult :=
  if threshold ≤ b.conf then
    match b.loc, b.tmpl with
    | some (lx, ly), some t =>
      .ok ⟨true, some num, some (lx + (t.width / 2 : ℕ) + offX),
           some (ly + (t.height / 2 : ℕ) + offY), b.conf⟩
    | _, _ => .error .noneSubscript
  else
    .ok st

/- One full priority-class block (scan all templates, then the threshold
check), the body repeated verbatim for 6, 5 and 4. -/
def checkNumber (mtv : Img → Img → ℚ × ℤ × ℤ) (gray : Img) (threshold : ℚ)
    (offX offY : ℤ) (num : Nat) (templates : List Img) (st : DetectResult) :
    Except PyErr DetectResult :=
  match scanClass mtv gray templates initBest with
  | .error e => .error e
  | .ok b => acceptBest threshold offX offY num b st

/- Capture offset (lines 819-825): the region's top-left corner when a
detection region is configured, `(0, 0)` for a full-screen grab. -/
def captureOffset : Option (ℤ × ℤ × ℤ × ℤ) → ℤ × ℤ
  | some (x, y, _, _) => (x, y)
  | none => (0, 0)

/- `char in ['6', '5', '4']` followed by `int(char)` (lines 941-944). -/
def digitVal (c : Char) : Option Nat :=
  if c = '6' then some 6 else if c = '5' then some 5 else
  if c = '4' then some 4 else none

/- Python's `text.strip()`: remove leading and trailing whitespace. -/
def stripChars (cs : List Char) : List Char :=
  ((cs.dropWhile Char.isWhitespace).reverse.dropWhile Char.isWhitespace).reverse

/- `for char in text.strip(): if char in ['6','5','4']: ...; break` —
the first in-set character of the stripped OCR text. -/
def firstTargetDigit : List Char → Option Nat
  | [] => none
  | c :: cs =>
    match digitVal c with
    | some n => some n
    | none => firstTargetDigit cs

/- `x = max(0, min(x, screen_width - w)); y = max(0, min(y, screen_height - h))`
(lines 933-934). -/
def clampRect (sw sh : ℤ) : ℤ × ℤ × ℤ × ℤ → ℤ × ℤ × ℤ × ℤ
  | (x, y, w, h) => (max 0 (min x (sw - w)), max 0 (min y (sh - h)), w, h)

/- `regions_to_check` (lines 927-930), computed from the raster's shape;
the divisions are Python `//` on the nonnegative shape values. -/
def regionsToCheck (sw sh : Nat) : List (ℤ × ℤ × ℤ × ℤ) :=
  [((sw / 2 : ℕ), ((sh / 2 : ℕ) : ℤ) - 100, 200, 100),
   ((sw : ℤ) - 300, ((sh / 2 : ℕ) : ℤ) - 100, 250, 150)]

/- The `for x, y, w, h in regions_to_check:` loop (lines 932-951): crop the
clamped rectangle, OCR it, and accept the first in-set digit, reporting the
center of that rectangle plus the capture offset.  An OCR failure
propagates out of the loop — the single `try` of the fallback sits outside
this loop, so later regions are not reached. -/
def ocrScanRegions (ocr : Img → ℤ × ℤ × ℤ × ℤ → Except PyErr String)
    (gray : Img) (offX offY : ℤ) :
    List (ℤ × ℤ × ℤ × ℤ) → Except PyErr (Option (Nat × ℤ × ℤ))
  | [] => .ok none
  | r :: rs =>
    match clampRect (gray.width : ℤ) (gray.height : ℤ) r with
    | (x, y, w, h) =>
      match ocr gray (x, y, w, h) with
      | .error e => .error e
      | .ok text =>
        match firstTargetDigit (stripChars text.toList) with
        | some n => .ok (some (n, x + w / 2 + offX, y + h / 2 + offY))
        | none => ocrScanRegions ocr gray offX offY rs

/- The OCR fallback with its surrounding `try/except` (lines 921-954): any
exception from the scan is swallowed (only logged) and the detection state
is left as it was; a successful scan fills in the detection fields but not
the confidence (which stays at its pre-fallback value). -/
def ocrFallback (ocr : Img → ℤ × ℤ × ℤ × ℤ → Except PyErr String)
    (gray : Img) (offX offY : ℤ) (st : DetectResult) : DetectResult :=
  match ocrScanRegions ocr gray offX offY (regionsToCheck gray.width gray.height) with
  | .error _ => st
  | .ok none => st
  | .ok (some (n, cx, cy)) => ⟨true, some n, some cx, some cy, st.confidence⟩

/- `detect_with_templates` (lines 813-959).  `grab` is `ImageGrab.grab`
(capturing the configured region or the full screen), `mtv` the cv2
matching collaborator, `ocr` the pytesseract collaborator.  Classes are
checked in the priority order 6, 5, 4, each class guarded by
`len(templates) > 0` and, for 5 and 4, by `not detected`; the OCR fallback
runs only when no class detected.  Exceptions from capture or matching
propagate to the caller (the per-cycle handler of the detection loop). -/
def detect_with_templates
    (grab : Option (ℤ × ℤ × ℤ × ℤ) → Except PyErr Img)
    (mtv : Img → Img → ℚ × ℤ × ℤ)
    (ocr : Img → ℤ × ℤ × ℤ × ℤ → Except PyErr String)
    (match_threshold : ℚ)
    (templates_6 templates_5 templates_4 : List Img)
    (detection_region : Option (ℤ × ℤ × ℤ × ℤ)) : Except PyErr DetectResult :=
  match grab detection_region with
  | .error e => .error e
  | .ok gray =>
    let off := captureOffset detection_region
    match (if 0 < templates_6.length then
        checkNumber mtv gray match_threshold off.1 off.2 6 templates_6 initResult
      else .ok initResult) with
    | .error e => .error e
    | .ok st1 =>
      match (if st1.detected = false ∧ 0 < templates_5.length then
          checkNumber mtv gray match_threshold off.1 off.2 5 templates_5 st1
        else .ok st1) with
      | .error e => .error e
      | .ok st2 =>
        match (if st2.detected = false ∧ 0 < templates_4.length then
            checkNumber mtv gray match_threshold off.1 off.2 4 templates_4 st2
          else .ok st2) with
        | .error e => .error e
        | .ok st3 =>
          .ok (if st3.detected = false then
              ocrFallback ocr gray off.1 off.2 st3
            else st3)

/- Settings the detection loop reads each cycle (frozen while running:
the settings dialog is refused while `self.running`). -/
structure LoopParams where
  match_threshold : ℚ
  click_cooldown : ℚ
  click_coordinates : Option (ℤ × ℤ)
  templates_6 : List Img
  templates_5 : List Img
  templates_4 : List Img
  detection_region : Option (ℤ × ℤ × ℤ × ℤ)

/- The per-cycle inputs of `detect_elemental` / `detect_physical`
(lines 969-1035 and 1045-1112): the `time.time()` value read at the top of
the `try`, the `self.paused` flag read before it, the collaborator
behaviour for this cycle, and whether `pyautogui.click` raises. -/
structure CycleIn where
  time : ℚ
  paused : Bool
  grab : Option (ℤ × ℤ × ℤ × ℤ) → Except PyErr Img
  mtv : Img → Img → ℚ × ℤ × ℤ
  ocr : Img → ℤ × ℤ × ℤ × ℤ → Except PyErr String
  clickErr : Bool

/- The loop-local state: `detection_count` and `last_click_time` are local
variables of the loop function (initialised to 0), `clicks` records the
`pyautogui.click` calls actually issued, `last_detection` mirrors
`self.last_detection` as `(number, confidence, timestamp)`. -/
structure LoopState where
  detection_count : Nat
  last_click_time : ℚ
  clicks : List (ℤ × ℤ)
  last_detection : Option (Option Nat × ℚ × ℚ)
deriving DecidableEq, Repr

/- `detection_count = 0; last_click_time = 0`, no clicks issued yet. -/
def initLoop : LoopState := ⟨0, 0, [], none⟩

/- Python truthiness of the optional click coordinates:
`None` and `0` are falsy, every other integer is truthy. -/
def truthy : Option ℤ → Bool
  | none => false
  | some v => !(v == 0)

/- Lines 1005-1010: click at the stored coordinates when configured,
otherwise at the detected location. -/
def clickTarget (cc : Option (ℤ × ℤ)) (cx cy : Option ℤ) : ℤ × ℤ :=
  match cc with
  | some p => p
  | none => (cx.getD 0, cy.getD 0)

/- The detection call a cycle makes (lines 979-985 / 1055-1061). -/
def detectOf (p : LoopParams) (c : CycleIn) : Except PyErr DetectResult :=
  detect_with_templates c.grab c.mtv c.ocr p.match_threshold
    p.templates_6 p.templates_5 p.templates_4 p.detection_region

/- One iteration of the `while self.running:` loop (lines 969-1035):
paused cycles only sleep; the `try` body runs detection and, when a
detection exists, the cooldown has elapsed and both click coordinates are
truthy, increments the counter, clicks, stamps `last_click_time` and
records the pending feedback detection.  `detection_count += 1` precedes
the click, and `last_click_time` / `last_detection` follow it, so a click
exception (caught by the same handler) leaves only the counter bumped.
Any exception in the body is caught and the loop proceeds. -/
def cycleStep (p : LoopParams) (st : LoopState) (c : CycleIn) : LoopState :=
  if c.paused = true then st
  else
    match detectOf p c with
    | .error _ => st
    | .ok r =>
      if r.detected = true ∧ p.click_cooldown ≤ c.time - st.last_click_time then
        if truthy r.clickX = true ∧ truthy r.clickY = true then
          if c.clickErr = true then
            { st with detection_count := st.detection_count + 1 }
          else
            { detection_count := st.detection_count + 1,
              last_click_time := c.time,
              clicks := st.clicks ++ [clickTarget p.click_coordinates r.clickX r.clickY],
              last_detection := some (r.number, r.confidence, c.time) }
        else st
      else st

/- A finite run of the detection loop over the given cycles. -/
def runLoop (p : LoopParams) (st : LoopState) (cs : List CycleIn) : LoopState :=
  cs.foldl (cycleStep p) st

/- One persisted feedback record (`feedback_data` entries). -/
structure Feedback where
  number : ℤ
  mode : String
  confidence : ℚ
  feedback : String
  timestamp : ℚ
deriving DecidableEq, Repr

/- The attributes `load_config` assigns (lines 102-131) with the defaults
set by `__init__` before the call. -/
structure SettingsState where
  match_threshold : ℚ
  click_cooldown : ℚ
  check_interval : ℚ
  click_coordinates : Option (ℤ × ℤ)
  elemental_detection_region : Option (ℤ × ℤ × ℤ × ℤ)
  physical_detection_region : Option (ℤ × ℤ × ℤ × ℤ)
  feedback_data : List Feedback
deriving DecidableEq, Repr

/- The `__init__` defaults: threshold 0.7, cooldown 1.0, interval 0.3,
no click position, no regions, empty feedback. -/
def initSettings : SettingsState := ⟨7/10, 1, 3/10, none, none, none, []⟩

/- The persisted JSON record as `config.get` sees it: `none` covers both a
missing key and an explicit `null`. -/
structure ConfigJson where
  match_threshold : Option ℚ
  click_cooldown : Option ℚ
  check_interval : Option ℚ
  click_coordinates : Option (List ℤ)
  detection_region : Option (List ℤ)
  elemental_detection_region : Option (List ℤ)
  physical_detection_region : Option (List ℤ)
  feedback_data : Option (List Feedback)

/- A configuration with every field absent. -/
def emptyConfig : ConfigJson := ⟨none, none, none, none, none, none, none, none⟩

/- `reg and len(reg) == 4` followed by `tuple(reg)`: a region value is used
only when it is a truthy list of length exactly 4. -/
def regionFrom : Option (List ℤ) → Option (ℤ × ℤ × ℤ × ℤ)
  | some [x, y, w, h] => some (x, y, w, h)
  | _ => none

/- Lines 114-129: the region and feedback assignments of `load_config`.
The new `elemental_detection_region` key wins; otherwise the legacy
`detection_region` key is used for the elemental region; the physical
region has no legacy fallback.  `feedback_data` defaults to `[]`. -/
def loadRegions (config : ConfigJson) (st : SettingsState) : SettingsState :=
  let st2 :=
    match regionFrom config.elemental_detection_region with
    | some r => { st with elemental_detection_region := some r }
    | none =>
      match regionFrom config.detection_region with
      | some r => { st with elemental_detection_region := some r }
      | none => st
  let st3 :=
    match regionFrom config.physical_detection_region with
    | some r => { st2 with physical_detection_region := some r }
    | none => st2
  { st3 with feedback_data := config.feedback_data.getD [] }

/- `load_config` (lines 102-131).  A missing or unreadable file leaves the
`__init__` defaults untouched (the whole body is wrapped in a `try`).  The
scalar fields are read with `config.get(key, default)`; the click position
is assigned only when truthy, and a truthy single-element list raises
`IndexError` on `click_pos[1]`, which the surrounding handler catches, so
the region and feedback fields are then never reached.  (The trailing
`update_feedback_stats()` call raises at startup because the UI labels do
not exist yet, but every assignment has already happened by then.) -/
def load_config (file : Option ConfigJson) (st : SettingsState) : SettingsState :=
  match file with
  | none => st
  | some config =>
    let st1 := { st with
      match_threshold := config.match_threshold.getD (7/10),
      click_cooldown := config.click_cooldown.getD 1,
      check_interval := config.check_interval.getD (3/10) }
    match config.click_coordinates with
    | some (cx :: cy :: _) =>
      loadRegions config { st1 with click_coordinates := some (cx, cy) }
    | some [_] => st1
    | some [] => loadRegions config st1
    | none => loadRegions config st1

/- Outcome of the region-calibration continuation: the two stored regions
and whether `messagebox.showerror` was called. -/
structure RegionOutcome where
  elemental_detection_region : Option (ℤ × ℤ × ℤ × ℤ)
  physical_detection_region : Option (ℤ × ℤ × ℤ × ℤ)
  errorShown : Bool
deriving DecidableEq, Repr

/- The completion of `set_detection_region` (lines 729-752): normalize the
two captured corners into a rectangle; only a rectangle with positive
width and height replaces the selected mode's region, otherwise an error
dialog is shown and both regions are left unchanged. -/
def set_detection_region (selected_mode : String) (topLeft bottomRight : ℤ × ℤ)
    (elemReg physReg : Option (ℤ × ℤ × ℤ × ℤ)) : RegionOutcome :=
  let x1 := min topLeft.1 bottomRight.1
  let y1 := min topLeft.2 bottomRight.2
  let x2 := max topLeft.1 bottomRight.1
  let y2 := max topLeft.2 bottomRight.2
  let width := x2 - x1
  let height := y2 - y1
  if 0 < width ∧ 0 < height then
    if selected_mode = "elemental" then
      ⟨some (x1, y1, width, height), physReg, false⟩
    else
      ⟨elemReg, some (x1, y1, width, height), false⟩
  else
    ⟨elemReg, physReg, true⟩

/- Concrete instances used to evaluate the theorems below on closed
inputs. -/

/- A 30x40 raster and two class-6 template variants: `tA` correlates at
5, `tB` at 9 (integer-valued rationals keep every comparison kernel-
computable), so against a threshold of 7 the best-of policy picks `tB`. -/
def grayW : Img := ⟨30, 40, 9⟩

def tA : Img := ⟨2, 2, 0⟩

def tB : Img := ⟨4, 8, 1⟩

def t5W : Img := ⟨3, 3, 5⟩

def t5W' : Img := ⟨3, 3, 6⟩

def t4W' : Img := ⟨3, 3, 7⟩

def grabW : Option (ℤ × ℤ × ℤ × ℤ) → Except PyErr Img := fun _ => .ok grayW

def mtvW : Img → Img → ℚ × ℤ × ℤ :=
  fun _ t => (if t.content = 1 then 9 else 5, (t.content : ℤ) + 10, (t.content : ℤ) + 20)

/- Agrees with `mtvW` on `tA` and `tB` (contents 0 and 1) but reports a
huge correlation for every other template. -/
def mtvW' : Img → Img → ℚ × ℤ × ℤ :=
  fun g t => if 5 ≤ t.content then (99, 0, 0) else mtvW g t

def ocrW : Img → ℤ × ℤ × ℤ × ℤ → Except PyErr String := fun _ _ => .ok ""

def ocrW' : Img → ℤ × ℤ × ℤ × ℤ → Except PyErr String := fun _ _ => .error .ocrError

def bW : BestMatch := ⟨9, some (11, 21), some tB⟩

/- Instance for the click-location theorem: a single template matching at
raster-local (10, 10) inside the region (100, 50, 200, 200). -/
def tC4 : Img := ⟨6, 8, 1⟩

def mtvC4 : Img → Img → ℚ × ℤ × ℤ := fun _ _ => (9, 10, 10)

def bC4 : BestMatch := ⟨9, some (10, 10), some tC4⟩

/- Instances for the detection-loop theorems. -/
def grayL : Img := ⟨20, 20, 3⟩

def grabL : Option (ℤ × ℤ × ℤ × ℤ) → Except PyErr Img := fun _ => .ok grayL

def t6L : Img := ⟨4, 4, 5⟩

def mtvL : Img → Img → ℚ × ℤ × ℤ := fun _ _ => (9, 3, 2)

def ocrL : Img → ℤ × ℤ × ℤ × ℤ → Except PyErr String := fun _ _ => .ok ""

def pL : LoopParams := ⟨7, 2, none, [t6L], [], [], none⟩

/- An ordinary detecting cycle at time `τ`. -/
def cyc (τ : ℚ) : CycleIn := ⟨τ, false, grabL, mtvL, ocrL, false⟩

/- The detection result such a cycle computes. -/
def rL : DetectResult := ⟨true, some 6, some 5, some 4, 9⟩

/- A cycle whose screen capture raises. -/
def grabE : Option (ℤ × ℤ × ℤ × ℤ) → Except PyErr Img := fun _ => .error .captureError

def cE : CycleIn := ⟨5, false, grabE, mtvL, ocrL, false⟩

/- A cycle whose match yields click_x = 0 (match center on the left
screen edge with no capture offset). -/
def mtv0L : Img → Img → ℚ × ℤ × ℤ := fun _ _ => (9, -2, 7)

def c10 : CycleIn := ⟨5, false, grabL, mtv0L, ocrL, false⟩

def r10 : DetectResult := ⟨true, some 6, some 0, some 9, 9⟩

/- Instances for the oversized-template claim: a 10x10 template against a
5x5 raster, next to a fitting template whose correlation would clear the
threshold. -/
def rasterC7 : Img := ⟨5, 5, 0⟩

def tBig : Img := ⟨10, 10, 1⟩

def tFit : Img := ⟨2, 2, 2⟩

def grabC7 : Option (ℤ × ℤ × ℤ × ℤ) → Except PyErr Img := fun _ => .ok rasterC7

def mtvC7 : Img → Img → ℚ × ℤ × ℤ := fun _ _ => (1, 0, 0)

def ocrC7 : Img → ℤ × ℤ × ℤ × ℤ → Except PyErr String := fun _ _ => .ok ""

/- Instances for the OCR-fallback claim: on a 1000x600 raster the scan
rectangles are (500, 200, 200, 100) and (700, 200, 250, 150); the engine
raises on the first and would read "6" on the second. -/
def grayC6 : Img := ⟨600, 1000, 7⟩

def ocrC6 : Img → ℤ × ℤ × ℤ × ℤ → Except PyErr String :=
  fun _ r => if r.1 = 500 then .error .ocrError else .ok "6"

/- Helper equations and lemmas about the per-class template scan. -/

theorem scanClass_nil (mtv : Img → Img → ℚ × ℤ × ℤ) (g : Img) (b : BestMatch) :
    scanClass mtv g [] b = .ok b := rfl

theorem scanClass_cons_ok (mtv : Img → Img → ℚ × ℤ × ℤ) (g t : Img) (ts : List Img)
    (b : BestMatch) (hf : t.height ≤ g.height ∧ t.width ≤ g.width) :
    scanClass mtv g (t :: ts) b =
      scanClass mtv g ts
        (if b.conf < (mtv g t).1 then
          ⟨(mtv g t).1, some ((mtv g t).2.1, (mtv g t).2.2), some t⟩
        else b) := by
  simp [scanClass, matchTemplate, hf]

theorem scanClass_cons_err (mtv : Img → Img → ℚ × ℤ × ℤ) (g t : Img) (ts : List Img)
    (b : BestMatch) (hf : ¬(t.height ≤ g.height ∧ t.width ≤ g.width)) :
    scanClass mtv g (t :: ts) b = .error .cvAssert := by
  simp [scanClass, matchTemplate, hf]

/- The scan computes the maximum confidence over the class's templates
(never below the running value) and, unless it never updated, reports the
location and template of an entry attaining that maximum. -/
theorem scanClass_spec (mtv : Img → Img → ℚ × ℤ × ℤ) (g : Img) (ts : List Img) :
    ∀ b0 b : BestMatch, scanClass mtv g ts b0 = .ok b →
      b0.conf ≤ b.conf ∧ (∀ t ∈ ts, (mtv g t).1 ≤ b.conf) ∧
      (b = b0 ∨ ∃ t ∈ ts, (mtv g t).1 = b.conf ∧
        b.loc = some ((mtv g t).2.1, (mtv g t).2.2) ∧ b.tmpl = some t) := by
  induction ts with
  | nil =>
    intro b0 b h
    rw [scanClass_nil] at h
    cases h
    exact ⟨le_refl _, by simp, Or.inl rfl⟩
  | cons t ts ih =>
    intro b0 b h
    by_cases hf : t.height ≤ g.height ∧ t.width ≤ g.width
    · rw [scanClass_cons_ok mtv g t ts b0 hf] at h
      by_cases hlt : b0.conf < (mtv g t).1
      · rw [if_pos hlt] at h
        obtain ⟨h1, h2, h3⟩ := ih _ b h
        refine ⟨le_trans (le_of_lt hlt) h1, ?_, ?_⟩
        · intro u hu
          rcases List.mem_cons.mp hu with hu | hu
          · subst hu; exact h1
          · exact h2 u hu
        · rcases h3 with h3 | ⟨u, hu, hc, hl, htm⟩
          · refine Or.inr ⟨t, List.mem_cons_self t ts, ?_, ?_, ?_⟩
            · rw [h3]
            · rw [h3]
            · rw [h3]
          · exact Or.inr ⟨u, List.mem_cons_of_mem t hu, hc, hl, htm⟩
      · rw [if_neg hlt] at h
        obtain ⟨h1, h2, h3⟩ := ih _ b h
        refine ⟨h1, ?_, ?_⟩
        · intro u hu
          rcases List.mem_cons.mp hu with hu | hu
          · subst hu; exact le_trans (not_lt.mp hlt) h1
          · exact h2 u hu
        · rcases h3 with h3 | ⟨u, hu, hc, hl, htm⟩
          · exact Or.inl h3
          · exact Or.inr ⟨u, List.mem_cons_of_mem t hu, hc, hl, htm⟩
    · rw [scanClass_cons_err mtv g t ts b0 hf] at h
      cases h

/- The scan only depends on the matching collaborator's values on the
scanned templates. -/
theorem scanClass_ext (mtv mtv' : Img → Img → ℚ × ℤ × ℤ) (g : Img) (ts : List Img)
    (h : ∀ t ∈ ts, mtv' g t = mtv g t) :
    ∀ b : BestMatch, scanClass mtv' g ts b = scanClass mtv g ts b := by
  induction ts with
  | nil => intro b; rfl
  | cons t ts ih =>
    intro b
    by_cases hf : t.height ≤ g.height ∧ t.width ≤ g.width
    · rw [scanClass_cons_ok mtv' g t ts b hf, scanClass_cons_ok mtv g t ts b hf,
        h t (List.mem_cons_self t ts)]
      exact ih (fun u hu => h u (List.mem_cons_of_mem t hu)) _
    · rw [scanClass_cons_err mtv' g t ts b hf, scanClass_cons_err mtv g t ts b hf]

/- A scan that starts from the initial best and ends with positive
confidence has recorded a location and a template. -/
theorem scanClass_pos_some (mtv : Img → Img → ℚ × ℤ × ℤ) (g : Img) (ts : List Img)
    (b : BestMatch) (h : scanClass mtv g ts initBest = .ok b) (hpos : 0 < b.conf) :
    ∃ t ∈ ts, (mtv g t).1 = b.conf ∧
      b.loc = some ((mtv g t).2.1, (mtv g t).2.2) ∧ b.tmpl = some t := by
  rcases (scanClass_spec mtv g ts initBest b h).2.2 with h3 | h3
  · rw [h3] at hpos
    exact absurd hpos (by simp [initBest])
  · exact h3

/- A fitting prefix never saves an oversized template: the scan raises the
OpenCV assertion as soon as it reaches it. -/
theorem scanClass_oversized (mtv : Img → Img → ℚ × ℤ × ℤ) (g : Img) (pre : List Img)
    (tb : Img) (post : List Img) :
    ∀ b0 : BestMatch, (∀ t ∈ pre, t.height ≤ g.height ∧ t.width ≤ g.width) →
      ¬(tb.height ≤ g.height ∧ tb.width ≤ g.width) →
      scanClass mtv g (pre ++ tb :: post) b0 = .error .cvAssert := by
  induction pre with
  | nil =>
    intro b0 _ hbig
    exact scanClass_cons_err mtv g tb post b0 hbig
  | cons t pre ih =>
    intro b0 hpre hbig
    rw [List.cons_append, scanClass_cons_ok mtv g t _ b0 (hpre t (List.mem_cons_self t pre))]
    exact ih _ (fun u hu => hpre u (List.mem_cons_of_mem t hu)) hbig

/-- Claim C3: within a single priority class holding several templates, the
matcher selects the template whose normalized cross-correlation confidence is
highest over all templates of that class (best-of, not first-over-threshold):
the reported confidence bounds every template's confidence, and the reported
confidence, location and template come from a template attaining it. -/
theorem scanClass_selects_best (mtv : Img → Img → ℚ × ℤ × ℤ) (g : Img)
    (ts : List Img) (b : BestMatch)
    (hb : scanClass mtv g ts initBest = .ok b)
    (hpos : ∃ t ∈ ts, 0 < (mtv g t).1) :
    (∀ t ∈ ts, (mtv g t).1 ≤ b.conf) ∧
    ∃ t ∈ ts, (mtv g t).1 = b.conf ∧
      b.loc = some ((mtv g t).2.1, (mtv g t).2.2) ∧ b.tmpl = some t := by
  obtain ⟨_, h2, _⟩ := scanClass_spec mtv g ts initBest b hb
  refine ⟨h2, ?_⟩
  apply scanClass_pos_some mtv g ts b hb
  obtain ⟨t, ht, hpt⟩ := hpos
  exact lt_of_lt_of_le hpt (h2 t ht)

/-- Witness for C3: with two class-6 variants at confidences 0.5 and 0.9 the
scan reports the 0.9 variant together with its location. -/
theorem scanClass_selects_best_witness :
    scanClass mtvW grayW [tA, tB] initBest = .ok bW ∧
    (∃ t ∈ [tA, tB], 0 < (mtvW grayW t).1) ∧
    ((∀ t ∈ [tA, tB], (mtvW grayW t).1 ≤ bW.conf) ∧
      ∃ t ∈ [tA, tB], (mtvW grayW t).1 = bW.conf ∧
        bW.loc = some ((mtvW grayW t).2.1, (mtvW grayW t).2.2) ∧ bW.tmpl = some t) :=
  ⟨rfl, by decide, scanClass_selects_best mtvW grayW [tA, tB] bW rfl (by decide)⟩

/- A class scan whose best confidence stays below the threshold leaves the
detection state unchanged. -/
theorem checkNumber_reject (mtv : Img → Img → ℚ × ℤ × ℤ) (g : Img) (thr : ℚ)
    (offX offY : ℤ) (num : Nat) (ts : List Img) (b : BestMatch) (st : DetectResult)
    (hs : scanClass mtv g ts initBest = .ok b) (hlt : b.conf < thr) :
    checkNumber mtv g thr offX offY num ts st = .ok st := by
  rw [checkNumber, hs]
  simp [acceptBest, not_le.mpr hlt]

/- A class scan that recorded a best match at or above the threshold turns
into an accepted detection for that class. -/
theorem checkNumber_accept (mtv : Img → Img → ℚ × ℤ × ℤ) (g : Img) (thr : ℚ)
    (offX offY : ℤ) (num : Nat) (ts : List Img) (b : BestMatch) (st : DetectResult)
    (lx ly : ℤ) (t : Img)
    (hs : scanClass mtv g ts initBest = .ok b)
    (hloc : b.loc = some (lx, ly)) (htm : b.tmpl = some t) (hthr : thr ≤ b.conf) :
    checkNumber mtv g thr offX offY num ts st =
      .ok ⟨true, some num, some (lx + (t.width / 2 : ℕ) + offX),
           some (ly + (t.height / 2 : ℕ) + offY), b.conf⟩ := by
  rw [checkNumber, hs]
  obtain ⟨conf, loc, tmpl⟩ := b
  simp only at hloc htm hthr
  subst hloc htm
  simp [acceptBest, hthr]

/- When the class-6 scan is accepted, the whole detection pass returns the
class-6 result: classes 5 and 4 and the OCR fallback are skipped. -/
theorem detect_accept6
    (grab : Option (ℤ × ℤ × ℤ × ℤ) → Except PyErr Img)
    (mtv : Img → Img → ℚ × ℤ × ℤ)
    (ocr : Img → ℤ × ℤ × ℤ × ℤ → Except PyErr String)
    (thr : ℚ) (T6 T5 T4 : List Img) (region : Option (ℤ × ℤ × ℤ × ℤ))
    (g : Img) (b6 : BestMatch) (lx ly : ℤ) (t : Img)
    (hg : grab region = .ok g)
    (hne : 0 < T6.length)
    (h6 : scanClass mtv g T6 initBest = .ok b6)
    (hloc : b6.loc = some (lx, ly)) (htm : b6.tmpl = some t)
    (hthr : thr ≤ b6.conf) :
    detect_with_templates grab mtv ocr thr T6 T5 T4 region =
      .ok ⟨true, some 6, some (lx + (t.width / 2 : ℕ) + (captureOffset region).1),
           some (ly + (t.height / 2 : ℕ) + (captureOffset region).2), b6.conf⟩ := by
  have hchk := checkNumber_accept mtv g thr (captureOffset region).1
    (captureOffset region).2 6 T6 b6 initResult lx ly t h6 hloc htm hthr
  simp only [initResult] at hchk
  simp [detect_with_templates, initResult, hg, hne, hchk]

/- When class 6 is rejected (or empty) and the class-5 scan is accepted, the
pass returns the class-5 result: class 4 and the OCR fallback are skipped. -/
theorem detect_accept5
    (grab : Option (ℤ × ℤ × ℤ × ℤ) → Except PyErr Img)
    (mtv : Img → Img → ℚ × ℤ × ℤ)
    (ocr : Img → ℤ × ℤ × ℤ × ℤ → Except PyErr String)
    (thr : ℚ) (T6 T5 T4 : List Img) (region : Option (ℤ × ℤ × ℤ × ℤ))
    (g : Img) (b6 b5 : BestMatch) (lx ly : ℤ) (t : Img)
    (hg : grab region = .ok g)
    (h6 : scanClass mtv g T6 initBest = .ok b6) (h6lt : b6.conf < thr)
    (hne5 : 0 < T5.length)
    (h5 : scanClass mtv g T5 initBest = .ok b5)
    (hloc : b5.loc = some (lx, ly)) (htm : b5.tmpl = some t)
    (hthr : thr ≤ b5.conf) :
    detect_with_templates grab mtv ocr thr T6 T5 T4 region =
      .ok ⟨true, some 5, some (lx + (t.width / 2 : ℕ) + (captureOffset region).1),
           some (ly + (t.height / 2 : ℕ) + (captureOffset region).2), b5.conf⟩ := by
  have hchk5 := checkNumber_accept mtv g thr (captureOffset region).1
    (captureOffset region).2 5 T5 b5 initResult lx ly t h5 hloc htm hthr
  simp only [initResult] at hchk5
  by_cases hne6 : 0 < T6.length
  · have hchk6 := checkNumber_reject mtv g thr (captureOffset region).1
      (captureOffset region).2 6 T6 b6 initResult h6 h6lt
    simp only [initResult] at hchk6
    simp [detect_with_templates, initResult, hg, hne6, hchk6, hne5, hchk5]
  · simp [detect_with_templates, initResult, hg, hne6, hne5, hchk5]

/-- Claim C1: in one detection pass, priority class 6 strictly dominates
classes 5 and 4: when the class-6 scan's best confidence (a genuine match,
hence positive) meets or exceeds the threshold, the pass reports class 6,
and its result is unchanged under arbitrary replacement of the class-5 and
class-4 template lists, of the matcher's correlation values outside the
class-6 templates, and of the OCR engine — so classes 5 and 4 are never
evaluated, however high their correlations would have been.  Likewise,
when class 6 is rejected, an accepted class 5 dominates class 4. -/
theorem priority_dominance
    (grab : Option (ℤ × ℤ × ℤ × ℤ) → Except PyErr Img)
    (mtv mtv' : Img → Img → ℚ × ℤ × ℤ)
    (ocr ocr' : Img → ℤ × ℤ × ℤ × ℤ → Except PyErr String)
    (thr : ℚ) (T6 T5 T4 T5' T4' : List Img) (region : Option (ℤ × ℤ × ℤ × ℤ))
    (g : Img) (b6 b5 : BestMatch)
    (hg : grab region = .ok g)
    (hagree6 : ∀ t ∈ T6, mtv' g t = mtv g t) :
    (scanClass mtv g T6 initBest = .ok b6 → 0 < b6.conf → thr ≤ b6.conf →
      (∃ r, detect_with_templates grab mtv ocr thr T6 T5 T4 region = .ok r ∧
        r.detected = true ∧ r.number = some 6) ∧
      detect_with_templates grab mtv' ocr' thr T6 T5' T4' region =
        detect_with_templates grab mtv ocr thr T6 T5 T4 region) ∧
    (scanClass mtv g T6 initBest = .ok b6 → b6.conf < thr →
      scanClass mtv g T5 initBest = .ok b5 → 0 < b5.conf → thr ≤ b5.conf →
      (∀ t ∈ T5, mtv' g t = mtv g t) →
      (∃ r, detect_with_templates grab mtv ocr thr T6 T5 T4 region = .ok r ∧
        r.detected = true ∧ r.number = some 5) ∧
      detect_with_templates grab mtv' ocr' thr T6 T5 T4' region =
        detect_with_templates grab mtv ocr thr T6 T5 T4 region) := by
  constructor
  · intro h6 hpos hthr
    obtain ⟨t0, ht0, _, hl0, htm0⟩ := scanClass_pos_some mtv g T6 b6 h6 hpos
    have hne : 0 < T6.length := List.length_pos.mpr (List.ne_nil_of_mem ht0)
    have hd := detect_accept6 grab mtv ocr thr T6 T5 T4 region g b6
      (mtv g t0).2.1 (mtv g t0).2.2 t0 hg hne h6 hl0 htm0 hthr
    refine ⟨⟨_, hd, rfl, rfl⟩, ?_⟩
    have h6' : scanClass mtv' g T6 initBest = .ok b6 := by
      rw [scanClass_ext mtv mtv' g T6 hagree6]
      exact h6
    have hd' := detect_accept6 grab mtv' ocr' thr T6 T5' T4' region g b6
      (mtv g t0).2.1 (mtv g t0).2.2 t0 hg hne h6' hl0 htm0 hthr
    rw [hd, hd']
  · intro h6 h6lt h5 hpos5 hthr5 hagree5
    obtain ⟨t0, ht0, _, hl0, htm0⟩ := scanClass_pos_some mtv g T5 b5 h5 hpos5
    have hne5 : 0 < T5.length := List.length_pos.mpr (List.ne_nil_of_mem ht0)
    have hd := detect_accept5 grab mtv ocr thr T6 T5 T4 region g b6 b5
      (mtv g t0).2.1 (mtv g t0).2.2 t0 hg h6 h6lt hne5 h5 hl0 htm0 hthr5
    refine ⟨⟨_, hd, rfl, rfl⟩, ?_⟩
    have h6' : scanClass mtv' g T6 initBest = .ok b6 := by
      rw [scanClass_ext mtv mtv' g T6 hagree6]
      exact h6
    have h5' : scanClass mtv' g T5 initBest = .ok b5 := by
      rw [scanClass_ext mtv mtv' g T5 hagree5]
      exact h5
    have hd' := detect_accept5 grab mtv' ocr' thr T6 T5 T4' region g b6 b5
      (mtv g t0).2.1 (mtv g t0).2.2 t0 hg h6' h6lt hne5 h5' hl0 htm0 hthr5
    rw [hd, hd']

/-- Witness for C1: a class-6 best of 9 against threshold 7 reports 6, and
swapping the class-5/4 templates, their correlations and the OCR engine
leaves the pass's result unchanged. -/
theorem priority_dominance_witness :
    scanClass mtvW grayW [tA, tB] initBest = .ok bW ∧ (0 : ℚ) < bW.conf ∧
    (7 : ℚ) ≤ bW.conf ∧
    ((∃ r, detect_with_templates grabW mtvW ocrW 7 [tA, tB] [t5W] [] none = .ok r ∧
        r.detected = true ∧ r.number = some 6) ∧
      detect_with_templates grabW mtvW' ocrW' 7 [tA, tB] [t5W'] [t4W'] none =
        detect_with_templates grabW mtvW ocrW 7 [tA, tB] [t5W] [] none) :=
  ⟨rfl, by decide, by decide,
   (priority_dominance grabW mtvW mtvW' ocrW ocrW' 7 [tA, tB] [t5W] [] [t5W'] [t4W']
      none grayW bW initBest rfl (by decide)).1 rfl (by decide) (by decide)⟩

/-- Claim C4: every accepted template match reports the raster-local
top-left corner of the best match plus half the matched template's width
and height (integer division), plus the capture offset; the capture offset
is the configured region's top-left corner, and (0, 0) without a region. -/
theorem click_location_center_offset
    (grab : Option (ℤ × ℤ × ℤ × ℤ) → Except PyErr Img)
    (mtv : Img → Img → ℚ × ℤ × ℤ)
    (ocr : Img → ℤ × ℤ × ℤ × ℤ → Except PyErr String)
    (thr : ℚ) (T6 T5 T4 : List Img) (region : Option (ℤ × ℤ × ℤ × ℤ))
    (g : Img) (b6 : BestMatch) (lx ly : ℤ) (t : Img)
    (hg : grab region = .ok g)
    (hne : 0 < T6.length)
    (h6 : scanClass mtv g T6 initBest = .ok b6)
    (hloc : b6.loc = some (lx, ly)) (htm : b6.tmpl = some t)
    (hthr : thr ≤ b6.conf) :
    detect_with_templates grab mtv ocr thr T6 T5 T4 region =
      .ok ⟨true, some 6, some (lx + (t.width / 2 : ℕ) + (captureOffset region).1),
           some (ly + (t.height / 2 : ℕ) + (captureOffset region).2), b6.conf⟩ ∧
    (∀ rx ry rw rh : ℤ, captureOffset (some (rx, ry, rw, rh)) = (rx, ry)) ∧
    captureOffset none = (0, 0) :=
  ⟨detect_accept6 grab mtv ocr thr T6 T5 T4 region g b6 lx ly t hg hne h6 hloc htm hthr,
   fun _ _ _ _ => rfl, rfl⟩

/-- Witness for C4: region (100, 50, 200, 200) and a raster-local match at
(10, 10) with an 8x6 template yield the absolute click target
(110 + 4, 60 + 3) = (114, 63). -/
theorem click_location_center_offset_witness :
    detect_with_templates grabW mtvC4 ocrW 7 [tC4] [] [] (some (100, 50, 200, 200)) =
      .ok ⟨true, some 6, some 114, some 63, 9⟩ ∧
    captureOffset (some (100, 50, 200, 200)) = (100, 50) :=
  ⟨(click_location_center_offset grabW mtvC4 ocrW 7 [tC4] [] []
      (some (100, 50, 200, 200)) grayW bC4 10 10 tC4 rfl (by decide) rfl rfl rfl
      (by decide)).1,
   (click_location_center_offset grabW mtvC4 ocrW 7 [tC4] [] []
      (some (100, 50, 200, 200)) grayW bC4 10 10 tC4 rfl (by decide) rfl rfl rfl
      (by decide)).2.1 100 50 200 200⟩

/- A cycle whose detection is accepted, whose cooldown has elapsed, whose
click coordinates are truthy and whose click succeeds performs the full
update: counter, click, cooldown stamp, pending feedback detection. -/
theorem cycleStep_click (p : LoopParams) (st : LoopState) (c : CycleIn)
    (r : DetectResult)
    (hp : c.paused = false) (hb : detectOf p c = .ok r)
    (hd : r.detected = true) (hx : truthy r.clickX = true)
    (hy : truthy r.clickY = true) (he : c.clickErr = false)
    (hcool : p.click_cooldown ≤ c.time - st.last_click_time) :
    cycleStep p st c =
      ⟨st.detection_count + 1, c.time,
       st.clicks ++ [clickTarget p.click_coordinates r.clickX r.clickY],
       some (r.number, r.confidence, c.time)⟩ := by
  simp [cycleStep, hp, hb, hd, hx, hy, he, hcool]

/- A detecting cycle arriving before the cooldown has elapsed changes
nothing. -/
theorem cycleStep_cooldown (p : LoopParams) (st : LoopState) (c : CycleIn)
    (r : DetectResult)
    (hp : c.paused = false) (hb : detectOf p c = .ok r)
    (hncool : ¬ p.click_cooldown ≤ c.time - st.last_click_time) :
    cycleStep p st c = st := by
  simp [cycleStep, hp, hb, hncool]

/-- Claim C2: within one run of the detection loop, two detections whose
cycles lie less than `click_cooldown` apart produce exactly one click and
exactly one counter increment: the state after both cycles equals the state
after the first alone, so the second detection is dropped, not queued. -/
theorem cooldown_idempotence (p : LoopParams) (st : LoopState) (c1 c2 : CycleIn)
    (r1 r2 : DetectResult)
    (h1p : c1.paused = false) (h2p : c2.paused = false)
    (h1 : detectOf p c1 = .ok r1) (h2 : detectOf p c2 = .ok r2)
    (h1d : r1.detected = true) (h1x : truthy r1.clickX = true)
    (h1y : truthy r1.clickY = true) (h1e : c1.clickErr = false)
    (h2d : r2.detected = true)
    (hcool1 : p.click_cooldown ≤ c1.time - st.last_click_time)
    (hcool2 : c2.time - c1.time < p.click_cooldown) :
    runLoop p st [c1, c2] = cycleStep p st c1 ∧
    (runLoop p st [c1, c2]).detection_count = st.detection_count + 1 ∧
    (runLoop p st [c1, c2]).clicks =
      st.clicks ++ [clickTarget p.click_coordinates r1.clickX r1.clickY] := by
  have e1 := cycleStep_click p st c1 r1 h1p h1 h1d h1x h1y h1e hcool1
  have e2 : cycleStep p (cycleStep p st c1) c2 = cycleStep p st c1 := by
    rw [e1]
    exact cycleStep_cooldown p _ c2 r2 h2p h2 (not_le.mpr hcool2)
  have hrun : runLoop p st [c1, c2] = cycleStep p (cycleStep p st c1) c2 := rfl
  refine ⟨by rw [hrun, e2], by rw [hrun, e2, e1], by rw [hrun, e2, e1]⟩

/-- Witness for C2: with cooldown 2, detecting cycles at times 10 and 11
click once and count once. -/
theorem cooldown_idempotence_witness :
    runLoop pL initLoop [cyc 10, cyc 11] = cycleStep pL initLoop (cyc 10) ∧
    (runLoop pL initLoop [cyc 10, cyc 11]).detection_count =
      initLoop.detection_count + 1 ∧
    (runLoop pL initLoop [cyc 10, cyc 11]).clicks =
      initLoop.clicks ++ [clickTarget pL.click_coordinates rL.clickX rL.clickY] :=
  cooldown_idempotence pL initLoop (cyc 10) (cyc 11) rL rL rfl rfl rfl rfl rfl rfl
    rfl rfl rfl (by norm_num [pL, cyc, initLoop]) (by norm_num [pL, cyc])

/-- Claim C5: an exception raised inside a cycle body — by the capture or
the template matching; OCR failures are already swallowed inside the body —
is caught by the per-cycle handler: the loop state is unchanged and the run
continues with the remaining scheduled ticks.  A click exception likewise
only costs that cycle (the counter, already incremented, survives; no click
is recorded and no cooldown stamp or feedback entry is written) and the run
continues. -/
theorem cycle_exception_caught (p : LoopParams) (cs : List CycleIn) :
    (∀ (st : LoopState) (c : CycleIn) (e : PyErr), c.paused = false →
      detectOf p c = .error e →
      cycleStep p st c = st ∧ runLoop p st (c :: cs) = runLoop p st cs) ∧
    (∀ (st : LoopState) (c : CycleIn) (r : DetectResult), c.paused = false →
      detectOf p c = .ok r → r.detected = true → truthy r.clickX = true →
      truthy r.clickY = true → c.clickErr = true →
      p.click_cooldown ≤ c.time - st.last_click_time →
      cycleStep p st c = { st with detection_count := st.detection_count + 1 } ∧
      runLoop p st (c :: cs) =
        runLoop p { st with detection_count := st.detection_count + 1 } cs) := by
  constructor
  · intro st c e hp hb
    have h1 : cycleStep p st c = st := by simp [cycleStep, hp, hb]
    refine ⟨h1, ?_⟩
    rw [show runLoop p st (c :: cs) = runLoop p (cycleStep p st c) cs from rfl, h1]
  · intro st c r hp hb hd hx hy he hcool
    have h1 : cycleStep p st c = { st with detection_count := st.detection_count + 1 } := by
      simp [cycleStep, hp, hb, hd, hx, hy, he, hcool]
    refine ⟨h1, ?_⟩
    rw [show runLoop p st (c :: cs) = runLoop p (cycleStep p st c) cs from rfl, h1]

/-- Witness for C5: a cycle whose screen capture raises leaves the state
unchanged and the run continues with the next cycle. -/
theorem cycle_exception_caught_witness :
    cycleStep pL initLoop cE = initLoop ∧
    runLoop pL initLoop [cE, cyc 10] = runLoop pL initLoop [cyc 10] :=
  (cycle_exception_caught pL [cyc 10]).1 initLoop cE .captureError rfl rfl

/-- Claim C10: when detection succeeds but a computed click coordinate
equals 0, the Python truthiness test treats it exactly like a missing
coordinate: even with the cooldown elapsed, no click is performed, the
detection counter does not advance, and no pending feedback detection is
recorded. -/
theorem zero_coordinate_dropped (p : LoopParams) (st : LoopState) (c : CycleIn)
    (r : DetectResult)
    (hp : c.paused = false) (hb : detectOf p c = .ok r) (hd : r.detected = true)
    (hz : r.clickX = some 0 ∨ r.clickY = some 0)
    (hcool : p.click_cooldown ≤ c.time - st.last_click_time) :
    cycleStep p st c = st ∧ (cycleStep p st c).clicks = st.clicks ∧
    (cycleStep p st c).detection_count = st.detection_count ∧
    (cycleStep p st c).last_detection = st.last_detection := by
  have h1 : cycleStep p st c = st := by
    rcases hz with hz | hz <;> simp [cycleStep, hp, hb, hd, hcool, hz, truthy]
  exact ⟨h1, by rw [h1], by rw [h1], by rw [h1]⟩

/-- Witness for C10: a match whose center lands on the left screen edge
(click_x = 0) is dropped although detection succeeded and the cooldown had
elapsed. -/
theorem zero_coordinate_dropped_witness :
    cycleStep pL initLoop c10 = initLoop ∧
    (cycleStep pL initLoop c10).clicks = initLoop.clicks ∧
    (cycleStep pL initLoop c10).detection_count = initLoop.detection_count ∧
    (cycleStep pL initLoop c10).last_detection = initLoop.last_detection :=
  zero_coordinate_dropped pL initLoop c10 r10 rfl rfl rfl (Or.inl rfl)
    (by norm_num [pL, c10, initLoop])

/-- Counterexample for C6 as stated: the single `try` of the OCR fallback
wraps the whole region loop, so when the engine raises on the first
candidate region of a 1000x600 raster, the fallback reports no detection
even though the second region would have read "6", an in-set digit — the
next candidate region is not tried. -/
theorem ocr_next_region_not_tried_cex :
    ocrFallback ocrC6 grayC6 0 0 initResult = initResult ∧
    (ocrFallback ocrC6 grayC6 0 0 initResult).detected = false ∧
    ocrC6 grayC6 (clampRect 1000 600 (700, 200, 250, 150)) = .ok "6" ∧
    firstTargetDigit (stripChars "6".toList) = some 6 :=
  ⟨rfl, rfl, rfl, rfl⟩

/-- Claim C6 (amended): an OCR engine exception on a candidate sub-region
aborts the whole fallback scan — the remaining candidate regions are NOT
tried — but the failure is swallowed by the fallback's surrounding handler:
the fallback yields no detection, and no exception reaches the caller of
the detection pass. -/
theorem ocr_failure_aborts_fallback
    (ocr : Img → ℤ × ℤ × ℤ × ℤ → Except PyErr String)
    (gray : Img) (offX offY : ℤ) (st : DetectResult) (e : PyErr) :
    (ocrScanRegions ocr gray offX offY (regionsToCheck gray.width gray.height) =
        .error e →
      ocrFallback ocr gray offX offY st = st) ∧
    (∀ r1 rs, regionsToCheck gray.width gray.height = r1 :: rs →
      ocr gray (clampRect (gray.width : ℤ) (gray.height : ℤ) r1) = .error e →
      ocrFallback ocr gray offX offY st = st) ∧
    (∀ (grab : Option (ℤ × ℤ × ℤ × ℤ) → Except PyErr Img)
        (mtv : Img → Img → ℚ × ℤ × ℤ) (thr : ℚ)
        (region : Option (ℤ × ℤ × ℤ × ℤ)) (g : Img), grab region = .ok g →
      detect_with_templates grab mtv ocr thr [] [] [] region =
        .ok (ocrFallback ocr g (captureOffset region).1 (captureOffset region).2
          initResult)) := by
  refine ⟨?_, ?_, ?_⟩
  · intro h
    simp only [ocrFallback, h]
  · intro r1 rs hr hocr
    simp only [ocrFallback]
    rw [hr]
    simp only [ocrScanRegions, Prod.mk.eta, hocr]
  · intro grab mtv thr region g hg
    simp [detect_with_templates, initResult, hg]

/-- Witness for C6 (amended): the engine raising on the first candidate
region of a 1000x600 raster leaves the detection state unchanged. -/
theorem ocr_failure_aborts_fallback_witness :
    ocrFallback ocrC6 grayC6 0 0 initResult = initResult :=
  (ocr_failure_aborts_fallback ocrC6 grayC6 0 0 initResult .ocrError).2.1
    (500, 200, 200, 100) [(700, 200, 250, 150)] rfl rfl

/-- Counterexample for C7 as stated: a 10x10 class-6 template against a
5x5 raster is not skipped: the pass raises the OpenCV assertion, although
the fitting class-5 template's correlation (1) meets the threshold (1), so
continuing with the remaining templates would have detected class 5. -/
theorem oversized_template_cex :
    detect_with_templates grabC7 mtvC7 ocrC7 1 [tBig] [tFit] [] none =
      .error .cvAssert ∧
    (1 : ℚ) ≤ (mtvC7 rasterC7 tFit).1 ∧
    tFit.height ≤ rasterC7.height ∧ tFit.width ≤ rasterC7.width :=
  ⟨rfl, by decide, by decide, by decide⟩

/-- Claim C7 (amended): a template larger than the raster in either
dimension is not skipped: `cv2.matchTemplate` raises on that pairing and
the exception aborts the entire detection pass of that cycle — the
remaining templates, the lower-priority classes and the OCR fallback are
not evaluated.  The per-cycle handler catches the exception, so the run
itself does not crash: the loop state is unchanged and the remaining
cycles proceed. -/
theorem oversized_template_aborts_pass
    (grab : Option (ℤ × ℤ × ℤ × ℤ) → Except PyErr Img)
    (mtv : Img → Img → ℚ × ℤ × ℤ)
    (ocr : Img → ℤ × ℤ × ℤ × ℤ → Except PyErr String)
    (thr : ℚ) (T5 T4 : List Img) (region : Option (ℤ × ℤ × ℤ × ℤ)) (g : Img)
    (pre post : List Img) (tb : Img)
    (hg : grab region = .ok g)
    (hpre : ∀ t ∈ pre, t.height ≤ g.height ∧ t.width ≤ g.width)
    (hbig : ¬(tb.height ≤ g.height ∧ tb.width ≤ g.width)) :
    detect_with_templates grab mtv ocr thr (pre ++ tb :: post) T5 T4 region =
      .error .cvAssert ∧
    (∀ (p : LoopParams) (st : LoopState) (c : CycleIn) (cs : List CycleIn),
      c.paused = false → detectOf p c = .error .cvAssert →
      cycleStep p st c = st ∧ runLoop p st (c :: cs) = runLoop p st cs) := by
  constructor
  · have hs := scanClass_oversized mtv g pre tb post initBest hpre hbig
    have hne : 0 < (pre ++ tb :: post).length := by simp
    have hchk : checkNumber mtv g thr (captureOffset region).1
        (captureOffset region).2 6 (pre ++ tb :: post) initResult =
        .error .cvAssert := by
      simp only [checkNumber, hs]
    simp [detect_with_templates, hg, hne, hchk]
  · intro p st c cs hp hb
    have h1 : cycleStep p st c = st := by simp [cycleStep, hp, hb]
    refine ⟨h1, ?_⟩
    rw [show runLoop p st (c :: cs) = runLoop p (cycleStep p st c) cs from rfl, h1]

/-- Witness for C7 (amended): the oversized pairing makes the whole pass
raise the OpenCV assertion. -/
theorem oversized_template_aborts_pass_witness :
    detect_with_templates grabC7 mtvC7 ocrC7 1 [tBig] [tFit] [] none =
      .error .cvAssert :=
  (oversized_template_aborts_pass grabC7 mtvC7 ocrC7 1 [tFit] [] none rasterC7
    [] [] tBig rfl (by decide) (by decide)).1

/-- Claim C8: loading a persisted configuration that carries the legacy
single-region field but no elemental-region field yields an elemental
detection region equal to the legacy region and a null physical region,
with every other missing field at its built-in default; an empty
configuration — and a missing or unreadable file — leaves all built-in
defaults in place. -/
theorem load_config_legacy_region :
    (∀ x y w h : ℤ,
      load_config (some { emptyConfig with detection_region := some [x, y, w, h] })
          initSettings =
        { initSettings with elemental_detection_region := some (x, y, w, h) }) ∧
    load_config (some emptyConfig) initSettings = initSettings ∧
    (∀ st : SettingsState, load_config none st = st) :=
  ⟨fun _ _ _ _ => rfl, rfl, fun _ => rfl⟩

/-- Claim C9: two calibration corner points spanning a rectangle of zero
width or zero height (in particular identical corners) leave both stored
regions unchanged and surface the error dialog; only when both corner
coordinates differ is the selected mode's region replaced, by a normalized
rectangle of positive width and height, with no error shown. -/
theorem degenerate_region_rejected (mode : String) (p1 p2 : ℤ × ℤ)
    (e p : Option (ℤ × ℤ × ℤ × ℤ)) :
    (p1.1 = p2.1 ∨ p1.2 = p2.2 →
      set_detection_region mode p1 p2 e p = ⟨e, p, true⟩) ∧
    (p1.1 ≠ p2.1 → p1.2 ≠ p2.2 →
      (set_detection_region mode p1 p2 e p).errorShown = false ∧
      0 < max p1.1 p2.1 - min p1.1 p2.1 ∧ 0 < max p1.2 p2.2 - min p1.2 p2.2 ∧
      (mode = "elemental" →
        set_detection_region mode p1 p2 e p =
          ⟨some (min p1.1 p2.1, min p1.2 p2.2, max p1.1 p2.1 - min p1.1 p2.1,
                 max p1.2 p2.2 - min p1.2 p2.2), p, false⟩) ∧
      (mode ≠ "elemental" →
        set_detection_region mode p1 p2 e p =
          ⟨e, some (min p1.1 p2.1, min p1.2 p2.2, max p1.1 p2.1 - min p1.1 p2.1,
                    max p1.2 p2.2 - min p1.2 p2.2), false⟩)) := by
  constructor
  · intro hz
    simp [set_detection_region]
    intro hx hy
    rcases hz with hz | hz
    · exact absurd hz.symm hx
    · exact absurd hz.symm hy
  · intro h1 h2
    have hw : 0 < max p1.1 p2.1 - min p1.1 p2.1 := by
      rcases lt_trichotomy p1.1 p2.1 with h | h | h
      · rw [max_eq_right (le_of_lt h), min_eq_left (le_of_lt h)]
        omega
      · exact absurd h h1
      · rw [max_eq_left (le_of_lt h), min_eq_right (le_of_lt h)]
        omega
    have hh : 0 < max p1.2 p2.2 - min p1.2 p2.2 := by
      rcases lt_trichotomy p1.2 p2.2 with h | h | h
      · rw [max_eq_right (le_of_lt h), min_eq_left (le_of_lt h)]
        omega
      · exact absurd h h2
      · rw [max_eq_left (le_of_lt h), min_eq_right (le_of_lt h)]
        omega
    refine ⟨?_, hw, hh, ?_, ?_⟩
    · by_cases hm : mode = "elemental" <;> simp [set_detection_region, hw, hh, hm]
    · intro hm
      simp [set_detection_region, hw, hh, hm]
    · intro hm
      simp [set_detection_region, hw, hh, hm]

/-- Witness for C9: identical x-coordinates (5, 9) and (5, 2) are rejected
with the error dialog and leave the previous regions in place. -/
theorem degenerate_region_rejected_witness :
    set_detection_region "elemental" (5, 9) (5, 2) (some (1, 1, 2, 2)) none =
      ⟨some (1, 1, 2, 2), none, true⟩ :=
  (degenerate_region_rejected "elemental" (5, 9) (5, 2) (some (1, 1, 2, 2)) none).1
    (Or.inl rfl)
